import Mathlib

/-!
Verification development for the line-draw repository.

The backend core (`backend/app/core/simulation.py`) treats an image as a
height field and simulates a ball rolling on it; `backend/app/core/drawing.py`
rasterizes the trajectory; `backend/app/api/routes.py` drives the job
lifecycle.  The Python floats are embedded as exact rationals (ℚ): every
arithmetic operation of the source is mirrored as the corresponding exact
operation, so all definitions are executable and statements about concrete
inputs can be settled by `decide`.  The trigonometric computation
`G * sin(arctan s) * cos(arctan s)` equals the rational function
`G * s / (1 + s^2)` exactly over the reals (proved below in
`accel_eq_sin_cos_arctan`), which is how the acceleration becomes a ℚ-valued
function.
-/

namespace LineDraw

attribute [local semireducible] Rat.mul Rat.inv Rat.add Rat.sub

/-- A 2-d vector of exact rationals, standing for the numpy length-2 float
arrays `position` and `velocity` in `PhysicsSimulator.simulate`. -/
@[ext]
structure Vec2 where
  x : ℚ
  y : ℚ
  deriving DecidableEq, Repr

/-- The square surface produced by preprocessing: side length `n` and the
grid of height values, indexed `val row col` like `surface[py, px]`. -/
structure Surface where
  n : ℕ
  val : ℕ → ℕ → ℚ

/-- Gravity constant `G = -1e-6` from `simulation.py`. -/
def G : ℚ := -(1 / 1000000)

/-- The per-axis acceleration of `get_acceleration_from_slope`: the source
computes `theta = arctan(slope)` and then `G * sin(theta) * cos(theta)`,
which equals `G * s / (1 + s^2)` exactly (see `accel_eq_sin_cos_arctan`). -/
def accel (s : ℚ) : ℚ := G * s / (1 + s ^ 2)

/-- One-dimensional `np.gradient` with spacing `1/n`, as used by
`compute_gradients`: one-sided differences at the two edge cells, central
differences (divided by `2/n`) elsewhere. -/
def gradAlong (n : ℕ) (f : ℕ → ℚ) (i : ℕ) : ℚ :=
  if i = 0 then (f 1 - f 0) * n
  else if i = n - 1 then (f (n - 1) - f (n - 2)) * n
  else (f (i + 1) - f (i - 1)) * n / 2

/-- Entry `gradient_x[r, c]` of `compute_gradients`: the derivative of the
surface along the column (x) axis. -/
def gradient_x (S : Surface) (r c : ℕ) : ℚ := gradAlong S.n (fun j => S.val r j) c

/-- Entry `gradient_y[r, c]` of `compute_gradients`: the derivative of the
surface along the row (y) axis. -/
def gradient_y (S : Surface) (r c : ℕ) : ℚ := gradAlong S.n (fun i => S.val i c) r

/-- The clamp `np.clip(v, lo, hi)`. -/
def clipQ (v lo hi : ℚ) : ℚ := max lo (min v hi)

/-- Python `int(...)` applied to a float: truncation toward zero. -/
def pyInt (q : ℚ) : ℤ := if q < 0 then -⌊-q⌋ else ⌊q⌋

/-- The pixel index of `get_gradient_at`:
`int(np.clip(x * self.w, 0, self.w - 1))`. -/
def pixIdx (n : ℕ) (x : ℚ) : ℤ := pyInt (clipQ (x * n) 0 ((n : ℚ) - 1))

/-- Modelled from the spec: the sampling index written in §4.3 step 1 of the
spec, `clamp(floor(position * N), 0, N-1)`, kept as a separate definition so
that it can be compared with the source's `pixIdx`. -/
def specIdx (n : ℕ) (x : ℚ) : ℤ := max 0 (min ⌊x * (n : ℚ)⌋ ((n : ℤ) - 1))

/-- The body of `PhysicsSimulator.get_gradient_at`: nearest-neighbor lookup
of the two gradient grids at row `py`, column `px`. -/
def get_gradient_at (S : Surface) (x y : ℚ) : ℚ × ℚ :=
  (gradient_x S (pixIdx S.n y).toNat (pixIdx S.n x).toNat,
   gradient_y S (pixIdx S.n y).toNat (pixIdx S.n x).toNat)

/-- The final clamp of the step loop, `np.clip(position, 0.0, 0.9999)`. -/
def clamp01 (q : ℚ) : ℚ := max 0 (min q (9999 / 10000))

/-- Velocity after the acceleration update of one step:
`velocity[0] += x_acc; velocity[1] += y_acc` with the accelerations taken
from the gradients sampled at the current position. -/
def velocityUpdate (S : Surface) (p v : Vec2) : Vec2 :=
  ⟨v.x + accel (get_gradient_at S p.x p.y).1,
   v.y + accel (get_gradient_at S p.x p.y).2⟩

/-- The `dim = 0` iteration of the bounce loop: if `position[0]` left
`[0, 1)` then `position -= velocity` (note: the whole vector) and
`velocity[0] *= -1`. -/
def bounceDimX (pv : Vec2 × Vec2) : Vec2 × Vec2 :=
  if 1 ≤ pv.1.x then (⟨pv.1.x - pv.2.x, pv.1.y - pv.2.y⟩, ⟨-pv.2.x, pv.2.y⟩)
  else if pv.1.x < 0 then (⟨pv.1.x - pv.2.x, pv.1.y - pv.2.y⟩, ⟨-pv.2.x, pv.2.y⟩)
  else pv

/-- The `dim = 1` iteration of the bounce loop: if `position[1]` left
`[0, 1)` then `position -= velocity` (the whole vector) and
`velocity[1] *= -1`. -/
def bounceDimY (pv : Vec2 × Vec2) : Vec2 × Vec2 :=
  if 1 ≤ pv.1.y then (⟨pv.1.x - pv.2.x, pv.1.y - pv.2.y⟩, ⟨pv.2.x, -pv.2.y⟩)
  else if pv.1.y < 0 then (⟨pv.1.x - pv.2.x, pv.1.y - pv.2.y⟩, ⟨pv.2.x, -pv.2.y⟩)
  else pv

/-- One iteration of the loop body of `PhysicsSimulator.simulate`:
velocity update, position update, per-axis bounce loop, final clamp.
Returns the new `(position, velocity)`. -/
def stepSim (S : Surface) (p v : Vec2) : Vec2 × Vec2 :=
  let v1 := velocityUpdate S p v
  let pv := bounceDimY (bounceDimX (⟨p.x + v1.x, p.y + v1.y⟩, v1))
  (⟨clamp01 pv.1.x, clamp01 pv.1.y⟩, pv.2)

/-- The `SimulationConfig` dataclass of `simulation.py` (defaults included),
with `iterations` as a natural number. -/
structure SimulationConfig where
  blur_sigma : ℚ := 4
  iterations : ℕ := 1500000
  start_x : ℚ := 1 / 2
  start_y : ℚ := 1 / 2
  initial_velocity : ℚ := 1 / 100000
  deriving DecidableEq, Repr

/-- The `SimulationProgress` dataclass yielded by the generator. -/
structure SimulationProgress where
  current_iteration : ℕ
  total_iterations : ℕ
  progress_percent : ℚ
  trajectory_points : ℕ
  deriving DecidableEq, Repr

/-- The mutable loop state of `PhysicsSimulator.simulate`: position,
velocity, the trajectory list, and the progress events yielded so far. -/
structure SimState where
  pos : Vec2
  vel : Vec2
  traj : List Vec2
  prog : List SimulationProgress

/-- The body of iteration `i` of the simulation loop: advance the physics
one step, append the new position to the trajectory, and, when
`i > 0 and i % progress_interval == 0`, record a progress event whose
`trajectory_points` is the length of the trajectory after the append. -/
def stepIter (S : Surface) (total interval : ℕ) (st : SimState) (i : ℕ) : SimState :=
  let pv := stepSim S st.pos st.vel
  let traj := st.traj ++ [pv.1]
  let prog :=
    if 0 < i ∧ i % interval = 0 then
      st.prog ++ [⟨i, total, (i : ℚ) / (total : ℚ) * 100, traj.length⟩]
    else st.prog
  ⟨pv.1, pv.2, traj, prog⟩

/-- The state before the loop: `position = (start_x, start_y)`,
`velocity = (1, 1) * initial_velocity`, `trajectory = [position.copy()]`,
no progress yielded yet. -/
def initSimState (cfg : SimulationConfig) : SimState :=
  ⟨⟨cfg.start_x, cfg.start_y⟩, ⟨cfg.initial_velocity, cfg.initial_velocity⟩,
   [⟨cfg.start_x, cfg.start_y⟩], []⟩

/-- The loop state after the first `k` iterations of
`for i in range(config.iterations)`. -/
def simAux (S : Surface) (cfg : SimulationConfig) (interval : ℕ) : ℕ → SimState
  | 0 => initSimState cfg
  | k + 1 => stepIter S cfg.iterations interval (simAux S cfg interval k) k

/-- `PhysicsSimulator.simulate`: the final trajectory (yielded as an array
at the end of the generator) together with the list of progress events
yielded along the way, in order. -/
def simulate (S : Surface) (cfg : SimulationConfig) (interval : ℕ) :
    List Vec2 × List SimulationProgress :=
  ((simAux S cfg interval cfg.iterations).traj, (simAux S cfg interval cfg.iterations).prog)

/-- The grid of an 8-bit single-channel PIL image, indexed row then column. -/
abbrev Grid8 : Type := ℕ → ℕ → ℕ

/-- A source image as seen by `preprocess_image`: PIL size `(w, h)` and the
grayscale value (0–255, as an exact rational) of the pixel at column `x`,
row `y`. -/
structure Img where
  w : ℕ
  h : ℕ
  px : ℕ → ℕ → ℚ

/-- `np.linspace(0, 1, size)` entry `i`; for `size = 1` numpy returns the
single value 0. -/
def linspace (size i : ℕ) : ℚ := if size ≤ 1 then 0 else (i : ℚ) / ((size : ℚ) - 1)

/-- The unnormalized paraboloid-plus-half grid of `create_gradient_filter`:
`a*(X-m)^2 + b*(Y-n)^2 + 0.5` with `a = 1`, `b = 0.5`, center
`(m, n) = (0.55, 0.5)`. -/
def paraHalf (size : ℕ) (r c : ℕ) : ℚ :=
  1 * (linspace size c - 55 / 100) ^ 2 + (1 / 2) * (linspace size r - 1 / 2) ^ 2 + 1 / 2

/-- `normalized.max()` in `create_gradient_filter`: the maximum entry of the
`paraHalf` grid.  Every entry is at least 1/2, so folding `max` from 0 gives
the true maximum for any nonempty grid. -/
def filterMax (size : ℕ) : ℚ :=
  ((List.range size).flatMap fun r => (List.range size).map fun c => paraHalf size r c).foldl max 0

/-- `create_gradient_filter(size)`: the paraboloid grid shifted by 0.5 and
divided by its maximum plus `1e-8`. -/
def create_gradient_filter (size : ℕ) (r c : ℕ) : ℚ :=
  paraHalf size r c / (filterMax size + 1 / 100000000)

/-- The final statement of `preprocess_image`:
`surface = surface * gradient_filter`, elementwise. -/
def apply_gradient_filter (size : ℕ) (blurred : ℕ → ℕ → ℚ) : ℕ → ℕ → ℚ :=
  fun r c => blurred r c * create_gradient_filter size r c

/-- Modelled from the spec: §4.1 says the deadzone-avoidance bias field is
"a paraboloid centered off-image-center … added to the surface and
re-normalized to [0,1]".  Addition of the paraboloid to the blurred surface
followed by the codebase's normalization convention (divide by the maximum
plus `1e-8`).  Kept separate so it can be compared with the source's
`apply_gradient_filter`. -/
def spec_deadzone_bias (size : ℕ) (blurred : ℕ → ℕ → ℚ) : ℕ → ℕ → ℚ :=
  fun r c =>
    (blurred r c + paraHalf size r c) /
      ((((List.range size).flatMap fun i => (List.range size).map fun j =>
          blurred i j + paraHalf size i j).foldl max 0) + 1 / 100000000)

/-- `(surface * 255).astype(np.uint8)` on one entry: truncation toward zero
followed by the unsigned 8-bit wraparound. -/
def toUint8 (q : ℚ) : ℕ := (pyInt q).toNat % 256

/-- `preprocess_image(image, blur_sigma)`.  The Gaussian blur is performed
by the external PIL library on an 8-bit image, so it enters the model as the
parameter `blur` (receiving the sigma, the side length and the quantized
grid).  Everything else follows the source line by line: grayscale values
are given by `Img.px`; center crop to `size = min(w, h)` with offsets
`(dim - size) // 2`; divide by 255; invert; divide by 400; quantize to
uint8; blur; divide by 255; multiply by the gradient filter.  The source
contains no validation and no raise statement (in particular no
`InvalidImageError` exists anywhere in the repository), so the model is a
total function. -/
def preprocess_image (img : Img) (blur : ℚ → ℕ → Grid8 → Grid8) (sigma : ℚ) : Surface :=
  let size := min img.w img.h
  let left := (img.w - size) / 2
  let top := (img.h - size) / 2
  let cropped : ℕ → ℕ → ℚ := fun r c => img.px (left + c) (top + r)
  let surface1 : ℕ → ℕ → ℚ := fun r c => (1 - cropped r c / 255) / 400
  let quant : Grid8 := fun r c => toUint8 (surface1 r c * 255)
  let blurred := blur sigma size quant
  let surface2 : ℕ → ℕ → ℚ := fun r c => (blurred r c : ℚ) / 255
  ⟨size, apply_gradient_filter size surface2⟩

/-- Modelled from the spec: §4.1 contract "build(image, blur_radius) ->
Surface, fails with InvalidImageError if the image has zero area".  The
failing case is represented by `none`; kept separate for comparison with
the source's `preprocess_image`, which has no failure path. -/
def build_spec (img : Img) (blur : ℚ → ℕ → Grid8 → Grid8) (sigma : ℚ) : Option Surface :=
  if img.w = 0 ∨ img.h = 0 then none else some (preprocess_image img blur sigma)

/-- `run_simulation(image, config)`: preprocess, then simulate with the
default `progress_interval = 10000`. -/
def run_simulation (img : Img) (blur : ℚ → ℕ → Grid8 → Grid8) (cfg : SimulationConfig) :
    List Vec2 × List SimulationProgress :=
  simulate (preprocess_image img blur cfg.blur_sigma) cfg 10000

/-- Squared length of one segment of `render_trajectory_to_image` after the
points are scaled by the canvas size: `(x2-x1)**2 + (y2-y1)**2` with
`xi, yi` the scaled coordinates. -/
def segLen2 (size : ℚ) (p q : Vec2) : ℚ :=
  (size * q.x - size * p.x) ^ 2 + (size * q.y - size * p.y) ^ 2

/-- The consecutive point pairs `points[i], points[i+1]` iterated by the
renderer's drawing loop. -/
def consecutivePairs (traj : List Vec2) : List (Vec2 × Vec2) := traj.zip traj.tail

/-- The segments actually drawn by `render_trajectory_to_image`: the loop
skips a pair when `sqrt((x2-x1)**2 + (y2-y1)**2) > size * 0.1` and calls
`draw.line` otherwise.  For a nonnegative canvas size that comparison of the
square root is equivalent to comparing the squares, which is the decidable
form used here (the equivalence with the square-root form is proved in the
claim theorem). -/
def drawnSegments (traj : List Vec2) (size : ℚ) : List (Vec2 × Vec2) :=
  (consecutivePairs traj).filter fun s => decide (segLen2 size s.1 s.2 ≤ (size * (1 / 10)) ^ 2)

/-- The `JobStatus` enum of `schemas.py`. -/
inductive JobStatus where
  | pending
  | processing
  | completed
  | failed
  deriving DecidableEq, Repr

/-- The observable outcome of the `start_job` route handler: either an
`HTTPException(status_code, detail)` raised synchronously, or an accepted
request, carrying the response status (`StartJobResponse(status=...)`) and
the job id passed to `background_tasks.add_task(job_manager.run_job, ...)`
— the run is deferred to a background task, so the handler returns without
executing the simulation. -/
inductive StartJobOutcome where
  | httpError (statusCode : ℕ) (detail : String)
  | accepted (response : JobStatus) (scheduledJob : String)
  deriving DecidableEq, Repr

/-- The `start_job` handler of `routes.py`: 404 when the job id is not in
the registry, 400 when the job is already processing or completed,
otherwise schedule `run_job` in the background and answer `PROCESSING`. -/
def start_job (registry : String → Option JobStatus) (job_id : String) : StartJobOutcome :=
  match registry job_id with
  | none => .httpError 404 "Job not found"
  | some s =>
    if s = .processing then .httpError 400 "Job is already processing"
    else if s = .completed then .httpError 400 "Job is already completed"
    else .accepted .processing job_id

/-- The all-zero surface of side 2.  It is reachable from the pipeline: any
source image yields it, because `preprocess_image` divides the inverted
surface by 400 before quantizing to uint8, so every quantized value is
`int(surface * 255) = 0` (the maximum possible is `255/400 * 255 / 255 <
1`), any blur of the zero image is zero, and the final multiplication by
the gradient filter keeps it zero. -/
def S0 : Surface := ⟨2, fun _ _ => 0⟩

/-- A blur parameter that returns its input unchanged; on the all-zero grid
this agrees with any normalized convolution, in particular PIL's Gaussian
blur. -/
def blurId : ℚ → ℕ → Grid8 → Grid8 := fun _ _ g => g

/-- A zero-area image (width 0). -/
def imgZero : Img := ⟨0, 5, fun _ _ => 0⟩

/-- A 1×1 source image, used for concrete instances. -/
def imgOne : Img := ⟨1, 1, fun _ _ => 0⟩

/-- A configuration reaching a bounce on the very first step: start at
`(3/5, 3/10)`, one iteration, `initial_velocity = 1/2` (the
`initial_velocity` field of the `SimulationConfig` dataclass).  The first
tentative position is `(3/5 + 1/2, 3/10 + 1/2) = (11/10, 4/5)`: axis 0
leaves `[0, 1)` while axis 1 stays inside. -/
def cfgBounce : SimulationConfig := ⟨4, 1, 3 / 5, 3 / 10, 1 / 2⟩

/-- A two-iteration configuration with the default start and velocity. -/
def cfgTwo : SimulationConfig := ⟨4, 2, 1 / 2, 1 / 2, 1 / 100000⟩

/-- A three-iteration configuration with the default start and velocity,
used with `progress_interval = 1` so progress events are emitted. -/
def cfgProg : SimulationConfig := ⟨4, 3, 1 / 2, 1 / 2, 1 / 100000⟩

/-- A small concrete job registry covering every status plus a missing id. -/
def registryEx : String → Option JobStatus := fun job_id =>
  if job_id = "p" then some .pending
  else if job_id = "r" then some .processing
  else if job_id = "c" then some .completed
  else if job_id = "f" then some .failed
  else none

/-- A concrete three-point trajectory: the first segment is short (5% of
the canvas at size 100), the second long (over 10%). -/
def trajEx : List Vec2 := [⟨0, 0⟩, ⟨1 / 20, 0⟩, ⟨1 / 2, 1 / 2⟩]

/-- Justification of the rational acceleration: over the reals,
`G * sin(arctan s) * cos(arctan s)` — the exact computation of
`get_acceleration_from_slope` — equals the embedded `accel s = G * s / (1 + s^2)`. -/
theorem accel_eq_sin_cos_arctan (s : ℚ) :
    ((accel s : ℚ) : ℝ) =
      ((G : ℚ) : ℝ) * Real.sin (Real.arctan (s : ℝ)) * Real.cos (Real.arctan (s : ℝ)) := by
  have h0 : (0 : ℝ) < 1 + (s : ℝ) ^ 2 := by positivity
  have hne : Real.sqrt (1 + (s : ℝ) ^ 2) ≠ 0 := (Real.sqrt_pos.mpr h0).ne'
  have hsq : Real.sqrt (1 + (s : ℝ) ^ 2) * Real.sqrt (1 + (s : ℝ) ^ 2) = 1 + (s : ℝ) ^ 2 :=
    Real.mul_self_sqrt h0.le
  rw [Real.sin_arctan, Real.cos_arctan]
  have hl : ((accel s : ℚ) : ℝ) = ((G : ℚ) : ℝ) * (s : ℝ) / (1 + (s : ℝ) ^ 2) := by
    unfold accel
    push_cast
    ring
  rw [hl]
  field_simp

/-- The result of `clamp01` is nonnegative. -/
theorem clamp01_nonneg (q : ℚ) : 0 ≤ clamp01 q := le_max_left 0 _

/-- The result of `clamp01` is below 1. -/
theorem clamp01_lt_one (q : ℚ) : clamp01 q < 1 := by
  unfold clamp01
  have h : max 0 (min q (9999 / 10000)) ≤ 9999 / 10000 :=
    max_le (by norm_num) (min_le_right _ _)
  linarith

/-- On the post-clamp range `[0, 0.9999]` the clamp is the identity. -/
theorem clamp01_eq_self {q : ℚ} (h0 : 0 ≤ q) (h1 : q ≤ 9999 / 10000) : clamp01 q = q := by
  unfold clamp01
  rw [min_eq_left h1, max_eq_right h0]

/-- Unfolded form of one simulation step. -/
theorem stepSim_def (S : Surface) (p v : Vec2) :
    stepSim S p v =
      (⟨clamp01 (bounceDimY (bounceDimX
          (⟨p.x + (velocityUpdate S p v).x, p.y + (velocityUpdate S p v).y⟩,
            velocityUpdate S p v))).1.x,
        clamp01 (bounceDimY (bounceDimX
          (⟨p.x + (velocityUpdate S p v).x, p.y + (velocityUpdate S p v).y⟩,
            velocityUpdate S p v))).1.y⟩,
        (bounceDimY (bounceDimX
          (⟨p.x + (velocityUpdate S p v).x, p.y + (velocityUpdate S p v).y⟩,
            velocityUpdate S p v))).2) := rfl

/-- Each simulation step lands in `[0, 1)` on both axes, by the final clamp. -/
theorem stepSim_bounds (S : Surface) (p v : Vec2) :
    0 ≤ (stepSim S p v).1.x ∧ (stepSim S p v).1.x < 1 ∧
    0 ≤ (stepSim S p v).1.y ∧ (stepSim S p v).1.y < 1 := by
  rw [stepSim_def]
  exact ⟨clamp01_nonneg _, clamp01_lt_one _, clamp01_nonneg _, clamp01_lt_one _⟩

/-- The loop appends exactly one trajectory point per iteration. -/
theorem simAux_traj_length (S : Surface) (cfg : SimulationConfig) (interval : ℕ) :
    ∀ k, (simAux S cfg interval k).traj.length = k + 1 := by
  intro k
  induction k with
  | zero => rfl
  | succ k ih =>
    show (stepIter S cfg.iterations interval (simAux S cfg interval k) k).traj.length = k + 1 + 1
    unfold stepIter
    simp [ih]

/-- Floor commutes with binary max. -/
theorem floorQ_max (a b : ℚ) : ⌊max a b⌋ = max ⌊a⌋ ⌊b⌋ := by
  rcases le_total a b with h | h
  · rw [max_eq_right h, max_eq_right (Int.floor_le_floor h)]
  · rw [max_eq_left h, max_eq_left (Int.floor_le_floor h)]

/-- Floor commutes with binary min. -/
theorem floorQ_min (a b : ℚ) : ⌊min a b⌋ = min ⌊a⌋ ⌊b⌋ := by
  rcases le_total a b with h | h
  · rw [min_eq_left h, min_eq_left (Int.floor_le_floor h)]
  · rw [min_eq_right h, min_eq_right (Int.floor_le_floor h)]

/-- The source's pixel index, truncation of the clipped product, equals the
spec's clamp-of-floor formula for any nonempty grid. -/
theorem pixIdx_eq_specIdx (n : ℕ) (x : ℚ) (hn : 1 ≤ n) : pixIdx n x = specIdx n x := by
  unfold pixIdx specIdx clipQ pyInt
  have h0 : (0 : ℚ) ≤ max 0 (min (x * n) ((n : ℚ) - 1)) := le_max_left 0 _
  rw [if_neg (not_lt.mpr h0), floorQ_max, floorQ_min, Int.floor_zero]
  have h2 : ⌊(n : ℚ) - 1⌋ = (n : ℤ) - 1 := by
    rw [show (n : ℚ) - 1 = (((n : ℤ) - 1 : ℤ) : ℚ) by push_cast; ring, Int.floor_intCast]
  rw [h2]

/-- C5: at every step the slopes are sampled by nearest-neighbor lookup at
the grid cell with index `clamp(floor(position * N), 0, N-1)` per axis
(`specIdx`), with no sub-cell interpolation: `get_gradient_at` returns the
two gradient grid entries at exactly that cell, and the source's index
computation `int(np.clip(x * N, 0, N - 1))` (`pixIdx`) coincides with the
spec's formula. -/
theorem C5_nearest_neighbor (S : Surface) (x y : ℚ) (hn : 1 ≤ S.n) :
    get_gradient_at S x y =
      (gradient_x S (specIdx S.n y).toNat (specIdx S.n x).toNat,
        gradient_y S (specIdx S.n y).toNat (specIdx S.n x).toNat) ∧
    pixIdx S.n x = specIdx S.n x := by
  constructor
  · unfold get_gradient_at
    rw [pixIdx_eq_specIdx S.n x hn, pixIdx_eq_specIdx S.n y hn]
  · exact pixIdx_eq_specIdx S.n x hn

/-- Witness for C5 at the all-zero surface of side 2 and position (7/10, 1/5). -/
theorem C5_nearest_neighbor_witness :
    (get_gradient_at S0 (7 / 10) (1 / 5) =
      (gradient_x S0 (specIdx S0.n (1 / 5)).toNat (specIdx S0.n (7 / 10)).toNat,
        gradient_y S0 (specIdx S0.n (1 / 5)).toNat (specIdx S0.n (7 / 10)).toNat) ∧
    pixIdx S0.n (7 / 10) = specIdx S0.n (7 / 10)) :=
  C5_nearest_neighbor S0 (7 / 10) (1 / 5) (by decide)

/-- C3: the trajectory produced by a run of `iterations = n ≥ 1` steps has
length exactly `n + 1`: the initial point plus one appended point per step. -/
theorem C3_trajectory_length (S : Surface) (cfg : SimulationConfig) (interval : ℕ)
    (h : 1 ≤ cfg.iterations) :
    (simulate S cfg interval).1.length = cfg.iterations + 1 :=
  simAux_traj_length S cfg interval cfg.iterations

/-- Witness for C3 with a concrete two-iteration run. -/
theorem C3_trajectory_length_witness :
    (simulate S0 cfgTwo 10000).1.length = cfgTwo.iterations + 1 :=
  C3_trajectory_length S0 cfgTwo 10000 (by decide)

/-- C2 counterexample: the claim says the final preprocessing step ADDS the
paraboloid to the blurred surface and re-normalizes.  The code instead
MULTIPLIES the blurred surface by the normalized filter
(`surface = surface * gradient_filter`).  On the all-zero blurred surface —
which is reachable; indeed `preprocess_image` produces it for every input,
because the quantization `(surface * 255).astype(np.uint8)` of values in
`[0, 255/400/255]` truncates everything to 0 — the code's step returns 0
everywhere, while the spec's addition-and-renormalization is nonzero at
cell (0, 0).  So the two disagree at that explicit input. -/
theorem C2_deadzone_counterexample :
    apply_gradient_filter 2 (fun _ _ => 0) 0 0 = 0 ∧
    spec_deadzone_bias 2 (fun _ _ => 0) 0 0 ≠ 0 ∧
    apply_gradient_filter 2 (fun _ _ => 0) 0 0 ≠ spec_deadzone_bias 2 (fun _ _ => 0) 0 0 := by
  decide

/-- C2 amended: the final preprocessing step applies the deadzone-avoidance
bias by MULTIPLYING the blurred surface elementwise with the normalized
paraboloid filter — the paraboloid `1*(x-0.55)^2 + 0.5*(y-0.5)^2` centered
at 55% width, 50% height, shifted by 0.5 and divided by its maximum plus
`1e-8` — with no re-normalization of the product. -/
theorem C2_deadzone_amended (size : ℕ) (blurred : ℕ → ℕ → ℚ) (r c : ℕ) :
    apply_gradient_filter size blurred r c =
      blurred r c *
        ((1 * (linspace size c - 55 / 100) ^ 2 + (1 / 2) * (linspace size r - 1 / 2) ^ 2 + 1 / 2) /
          (filterMax size + 1 / 100000000)) := rfl

/-- C6: the pipeline `preprocess_image` → `PhysicsSimulator` → `simulate`
contains no source of nondeterminism (no randomness, no time, no
environment reads), so it embeds as a pure function of the image, the blur
and the configuration: two runs on equal inputs produce equal trajectories
(and equal progress streams). -/
theorem C6_determinism (img1 img2 : Img) (blur1 blur2 : ℚ → ℕ → Grid8 → Grid8)
    (cfg1 cfg2 : SimulationConfig)
    (hi : img1 = img2) (hb : blur1 = blur2) (hc : cfg1 = cfg2) :
    (run_simulation img1 blur1 cfg1).1 = (run_simulation img2 blur2 cfg2).1 ∧
    run_simulation img1 blur1 cfg1 = run_simulation img2 blur2 cfg2 := by
  subst hi
  subst hb
  subst hc
  exact ⟨rfl, rfl⟩

/-- Witness for C6 at a concrete image and configuration. -/
theorem C6_determinism_witness :
    (run_simulation imgOne blurId cfgTwo).1 = (run_simulation imgOne blurId cfgTwo).1 ∧
    run_simulation imgOne blurId cfgTwo = run_simulation imgOne blurId cfgTwo :=
  C6_determinism imgOne imgOne blurId blurId cfgTwo cfgTwo rfl rfl rfl

/-- C7: `start_job` answers 404 "Job not found" when the id is not in the
registry (the spec's `NotFoundError`), 400 when the job is already
processing or completed (the spec's `InvalidStateError`), and for a Pending
job — or a Failed one being restarted explicitly — schedules `run_job` as a
deferred background task and immediately reports status `processing`
without running the simulation in the handler. -/
theorem C7_start_job_lifecycle (registry : String → Option JobStatus) (job_id : String) :
    (registry job_id = none → start_job registry job_id = .httpError 404 "Job not found") ∧
    (registry job_id = some .processing →
      start_job registry job_id = .httpError 400 "Job is already processing") ∧
    (registry job_id = some .completed →
      start_job registry job_id = .httpError 400 "Job is already completed") ∧
    (∀ s, registry job_id = some s → s ≠ .processing → s ≠ .completed →
      start_job registry job_id = .accepted .processing job_id) := by
  refine ⟨fun h => ?_, fun h => ?_, fun h => ?_, fun s h h1 h2 => ?_⟩
  · unfold start_job
    rw [h]
  · unfold start_job
    rw [h]
    simp
  · unfold start_job
    rw [h]
    simp
  · unfold start_job
    rw [h]
    simp only []
    rw [if_neg h1, if_neg h2]

/-- Witness for C7 exercising all five registry situations. -/
theorem C7_start_job_lifecycle_witness :
    start_job registryEx "z" = .httpError 404 "Job not found" ∧
    start_job registryEx "r" = .httpError 400 "Job is already processing" ∧
    start_job registryEx "c" = .httpError 400 "Job is already completed" ∧
    start_job registryEx "p" = .accepted .processing "p" ∧
    start_job registryEx "f" = .accepted .processing "f" :=
  ⟨(C7_start_job_lifecycle registryEx "z").1 (by decide),
    (C7_start_job_lifecycle registryEx "r").2.1 (by decide),
    (C7_start_job_lifecycle registryEx "c").2.2.1 (by decide),
    (C7_start_job_lifecycle registryEx "p").2.2.2 .pending (by decide) (by decide) (by decide),
    (C7_start_job_lifecycle registryEx "f").2.2.2 .failed (by decide) (by decide) (by decide)⟩

/-- C8 counterexample: the claim says `build` fails with `InvalidImageError`
on every zero-area image.  The source's `preprocess_image` contains no
validation and no raise statement, and the identifier `InvalidImageError`
does not occur anywhere in the repository; on a zero-area image the crop
yields a 0×0 grid and a (degenerate) surface is returned.  `build_spec`, the
contract modelled from the spec, fails (`none`) at the zero-width image
while the code's `preprocess_image` returns a surface of side 0. -/
theorem C8_zero_area_counterexample :
    build_spec imgZero blurId 4 = none ∧ (preprocess_image imgZero blurId 4).n = 0 := by
  constructor
  · rfl
  · rfl

/-- C8 amended: `preprocess_image` performs no zero-area validation and has
no failure path; on any image of zero area it returns the degenerate 0×0
surface produced by the center crop (any failure could only arise later in
external library calls, recorded as a generic job failure, not an
`InvalidImageError` at build time). -/
theorem C8_zero_area_amended (img : Img) (blur : ℚ → ℕ → Grid8 → Grid8) (sigma : ℚ)
    (h : img.w = 0 ∨ img.h = 0) :
    (preprocess_image img blur sigma).n = 0 := by
  have hn : (preprocess_image img blur sigma).n = min img.w img.h := rfl
  rw [hn]
  rcases h with h | h
  · simp [h]
  · simp [h]

/-- Witness for the amended C8 at the concrete zero-width image. -/
theorem C8_zero_area_amended_witness : (preprocess_image imgZero blurId 4).n = 0 :=
  C8_zero_area_amended imgZero blurId 4 (Or.inl rfl)

/-- C1 counterexample: the claim says that when one axis violates the
boundary, only that axis's position update is undone while "the other
axis's motion for that step is unaffected (its coordinate still advances by
its velocity)".  The code's bounce does `position -= velocity` on the WHOLE
vector.  Concretely, with the all-zero surface (zero gradients, so the
velocity update leaves the configured velocity `(1/2, 1/2)` unchanged) and
start `(3/5, 3/10)`: the tentative position is `(11/10, 4/5)`; axis 0
violates (`11/10 ≥ 1`) while axis 1 stays in `[0, 1)`; the step's appended
position is `(3/5, 3/10)` — its y coordinate did NOT advance to
`3/10 + 1/2 = 4/5` as the claim requires — even though, as the claim says,
the x velocity is negated and x equals the pre-update position. -/
theorem C1_reflection_counterexample :
    (simulate S0 cfgBounce 10000).1 = [⟨3 / 5, 3 / 10⟩, ⟨3 / 5, 3 / 10⟩] ∧
    velocityUpdate S0 ⟨3 / 5, 3 / 10⟩ ⟨1 / 2, 1 / 2⟩ = ⟨1 / 2, 1 / 2⟩ ∧
    1 ≤ (3 / 5 : ℚ) + 1 / 2 ∧
    (0 ≤ (3 / 10 : ℚ) + 1 / 2 ∧ (3 / 10 : ℚ) + 1 / 2 < 1) ∧
    (stepSim S0 ⟨3 / 5, 3 / 10⟩ ⟨1 / 2, 1 / 2⟩).1.y = 3 / 10 ∧
    (stepSim S0 ⟨3 / 5, 3 / 10⟩ ⟨1 / 2, 1 / 2⟩).2 = ⟨-(1 / 2), 1 / 2⟩ ∧
    (3 / 10 : ℚ) ≠ 3 / 10 + 1 / 2 := by
  decide

/-- C1 amended: when a step's tentative position violates the boundary on
an axis, the position update is undone on BOTH axes (the full velocity
vector is subtracted back out, returning the ball to its pre-update
position), and the violating axis's velocity component is negated while the
other axis's velocity component is kept.  The hypotheses put the pre-update
position in `[0, 0.9999]²`, the invariant range established by the final
clamp of every earlier step; after an axis-0 undo the restored axis-1
coordinate is therefore in range, so the axis-1 check cannot fire in the
same step. -/
theorem C1_reflection_amended (S : Surface) (p v v1 : Vec2)
    (hv1 : v1 = velocityUpdate S p v)
    (hx0 : 0 ≤ p.x) (hx1 : p.x ≤ 9999 / 10000)
    (hy0 : 0 ≤ p.y) (hy1 : p.y ≤ 9999 / 10000) :
    ((1 ≤ p.x + v1.x ∨ p.x + v1.x < 0) → stepSim S p v = (p, ⟨-v1.x, v1.y⟩)) ∧
    (¬ (1 ≤ p.x + v1.x) → ¬ (p.x + v1.x < 0) → (1 ≤ p.y + v1.y ∨ p.y + v1.y < 0) →
      stepSim S p v = (p, ⟨v1.x, -v1.y⟩)) := by
  subst hv1
  have hx1' : p.x < 1 := lt_of_le_of_lt hx1 (by norm_num)
  have hy1' : p.y < 1 := lt_of_le_of_lt hy1 (by norm_num)
  have hp : (⟨p.x + (velocityUpdate S p v).x - (velocityUpdate S p v).x,
      p.y + (velocityUpdate S p v).y - (velocityUpdate S p v).y⟩ : Vec2) = p := by
    have e1 : p.x + (velocityUpdate S p v).x - (velocityUpdate S p v).x = p.x := by ring
    have e2 : p.y + (velocityUpdate S p v).y - (velocityUpdate S p v).y = p.y := by ring
    rw [e1, e2]
  have hclamp : (⟨clamp01 p.x, clamp01 p.y⟩ : Vec2) = p := by
    rw [clamp01_eq_self hx0 hx1, clamp01_eq_self hy0 hy1]
  constructor
  · intro h
    have hbx : bounceDimX
        (⟨p.x + (velocityUpdate S p v).x, p.y + (velocityUpdate S p v).y⟩, velocityUpdate S p v) =
        (p, ⟨-(velocityUpdate S p v).x, (velocityUpdate S p v).y⟩) := by
      rcases h with h | h
      · unfold bounceDimX
        rw [if_pos h]
        show (⟨p.x + (velocityUpdate S p v).x - (velocityUpdate S p v).x,
            p.y + (velocityUpdate S p v).y - (velocityUpdate S p v).y⟩,
          (⟨-(velocityUpdate S p v).x, (velocityUpdate S p v).y⟩ : Vec2)) =
          (p, ⟨-(velocityUpdate S p v).x, (velocityUpdate S p v).y⟩)
        rw [hp]
      · unfold bounceDimX
        rw [if_neg (show ¬ (1 : ℚ) ≤ p.x + (velocityUpdate S p v).x by linarith), if_pos h]
        show (⟨p.x + (velocityUpdate S p v).x - (velocityUpdate S p v).x,
            p.y + (velocityUpdate S p v).y - (velocityUpdate S p v).y⟩,
          (⟨-(velocityUpdate S p v).x, (velocityUpdate S p v).y⟩ : Vec2)) =
          (p, ⟨-(velocityUpdate S p v).x, (velocityUpdate S p v).y⟩)
        rw [hp]
    have hby : bounceDimY (p, (⟨-(velocityUpdate S p v).x, (velocityUpdate S p v).y⟩ : Vec2)) =
        (p, ⟨-(velocityUpdate S p v).x, (velocityUpdate S p v).y⟩) := by
      unfold bounceDimY
      rw [if_neg (show ¬ (1 : ℚ) ≤ p.y by linarith), if_neg (show ¬ p.y < 0 by linarith)]
    rw [stepSim_def, hbx, hby]
    show ((⟨clamp01 p.x, clamp01 p.y⟩ : Vec2),
        (⟨-(velocityUpdate S p v).x, (velocityUpdate S p v).y⟩ : Vec2)) =
      (p, ⟨-(velocityUpdate S p v).x, (velocityUpdate S p v).y⟩)
    rw [hclamp]
  · intro ha hb h
    have hbx : bounceDimX
        (⟨p.x + (velocityUpdate S p v).x, p.y + (velocityUpdate S p v).y⟩, velocityUpdate S p v) =
        (⟨p.x + (velocityUpdate S p v).x, p.y + (velocityUpdate S p v).y⟩, velocityUpdate S p v) := by
      unfold bounceDimX
      rw [if_neg ha, if_neg hb]
    have hby : bounceDimY
        (⟨p.x + (velocityUpdate S p v).x, p.y + (velocityUpdate S p v).y⟩, velocityUpdate S p v) =
        (p, ⟨(velocityUpdate S p v).x, -(velocityUpdate S p v).y⟩) := by
      rcases h with h | h
      · unfold bounceDimY
        rw [if_pos h]
        show (⟨p.x + (velocityUpdate S p v).x - (velocityUpdate S p v).x,
            p.y + (velocityUpdate S p v).y - (velocityUpdate S p v).y⟩,
          (⟨(velocityUpdate S p v).x, -(velocityUpdate S p v).y⟩ : Vec2)) =
          (p, ⟨(velocityUpdate S p v).x, -(velocityUpdate S p v).y⟩)
        rw [hp]
      · unfold bounceDimY
        rw [if_neg (show ¬ (1 : ℚ) ≤ p.y + (velocityUpdate S p v).y by linarith), if_pos h]
        show (⟨p.x + (velocityUpdate S p v).x - (velocityUpdate S p v).x,
            p.y + (velocityUpdate S p v).y - (velocityUpdate S p v).y⟩,
          (⟨(velocityUpdate S p v).x, -(velocityUpdate S p v).y⟩ : Vec2)) =
          (p, ⟨(velocityUpdate S p v).x, -(velocityUpdate S p v).y⟩)
        rw [hp]
    rw [stepSim_def, hbx, hby]
    show ((⟨clamp01 p.x, clamp01 p.y⟩ : Vec2),
        (⟨(velocityUpdate S p v).x, -(velocityUpdate S p v).y⟩ : Vec2)) =
      (p, ⟨(velocityUpdate S p v).x, -(velocityUpdate S p v).y⟩)
    rw [hclamp]

/-- Witness for the amended C1 at the concrete bounce of
`C1_reflection_counterexample`. -/
theorem C1_reflection_amended_witness :
    stepSim S0 ⟨3 / 5, 3 / 10⟩ ⟨1 / 2, 1 / 2⟩ = (⟨3 / 5, 3 / 10⟩, ⟨-(1 / 2), 1 / 2⟩) := by
  have hv : (⟨1 / 2, 1 / 2⟩ : Vec2) = velocityUpdate S0 ⟨3 / 5, 3 / 10⟩ ⟨1 / 2, 1 / 2⟩ := by
    decide
  exact (C1_reflection_amended S0 ⟨3 / 5, 3 / 10⟩ ⟨1 / 2, 1 / 2⟩ ⟨1 / 2, 1 / 2⟩ hv
    (by decide) (by decide) (by decide) (by decide)).1 (Or.inl (by decide))

/-- Every trajectory point of a partial run lies in `[0, 1)²`, provided the
start position does. -/
theorem simAux_traj_mem_bounds (S : Surface) (cfg : SimulationConfig) (interval : ℕ)
    (hx0 : 0 ≤ cfg.start_x) (hx1 : cfg.start_x < 1)
    (hy0 : 0 ≤ cfg.start_y) (hy1 : cfg.start_y < 1) :
    ∀ k, ∀ q ∈ (simAux S cfg interval k).traj,
      0 ≤ q.x ∧ q.x < 1 ∧ 0 ≤ q.y ∧ q.y < 1 := by
  intro k
  induction k with
  | zero =>
    intro q hq
    simp only [simAux, initSimState, List.mem_singleton] at hq
    subst hq
    exact ⟨hx0, hx1, hy0, hy1⟩
  | succ k ih =>
    intro q hq
    simp only [simAux, stepIter, List.mem_append, List.mem_singleton] at hq
    rcases hq with hq | hq
    · exact ih q hq
    · subst hq
      exact stepSim_bounds S _ _

/-- C4: for every surface and every configuration whose start position lies
in `[0, 1)²`, every trajectory point — the initial point and the point
appended after each step — lies in `[0, 1) × [0, 1)`.  The per-step bound
comes from the final clamp `np.clip(position, 0.0, 0.9999)`.  In this exact
rational embedding every value is finite, so no trajectory coordinate is a
NaN or an infinity. -/
theorem C4_boundedness (S : Surface) (cfg : SimulationConfig) (interval : ℕ)
    (hx0 : 0 ≤ cfg.start_x) (hx1 : cfg.start_x < 1)
    (hy0 : 0 ≤ cfg.start_y) (hy1 : cfg.start_y < 1) :
    ∀ q ∈ (simulate S cfg interval).1, 0 ≤ q.x ∧ q.x < 1 ∧ 0 ≤ q.y ∧ q.y < 1 :=
  fun q hq =>
    simAux_traj_mem_bounds S cfg interval hx0 hx1 hy0 hy1 cfg.iterations q hq

/-- Witness for C4 at a concrete run and a concrete trajectory point. -/
theorem C4_boundedness_witness :
    0 ≤ (⟨1 / 2, 1 / 2⟩ : Vec2).x ∧ (⟨1 / 2, 1 / 2⟩ : Vec2).x < 1 ∧
    0 ≤ (⟨1 / 2, 1 / 2⟩ : Vec2).y ∧ (⟨1 / 2, 1 / 2⟩ : Vec2).y < 1 :=
  C4_boundedness S0 cfgTwo 10000 (by decide) (by decide) (by decide) (by decide)
    ⟨1 / 2, 1 / 2⟩ (by decide)

/-- Every progress event recorded after `k` loop iterations has a positive
iteration index that is a multiple of the interval, is below `k`, carries
the configured total, the percent formula, and the trajectory length at the
moment it was yielded (two more than its index). -/
theorem simAux_prog_inv (S : Surface) (cfg : SimulationConfig) (interval : ℕ) :
    ∀ k, ∀ e ∈ (simAux S cfg interval k).prog,
      0 < e.current_iteration ∧ e.current_iteration % interval = 0 ∧
      e.current_iteration < k ∧ e.total_iterations = cfg.iterations ∧
      e.progress_percent = (e.current_iteration : ℚ) / (cfg.iterations : ℚ) * 100 ∧
      e.trajectory_points = e.current_iteration + 2 := by
  intro k
  induction k with
  | zero =>
    intro e he
    simp only [simAux, initSimState] at he
    exact absurd he (List.not_mem_nil e)
  | succ k ih =>
    intro e he
    by_cases hc : 0 < k ∧ k % interval = 0
    · simp only [simAux, stepIter, if_pos hc, List.mem_append, List.mem_singleton] at he
      rcases he with he | he
      · obtain ⟨h1, h2, h3, h4, h5, h6⟩ := ih e he
        exact ⟨h1, h2, Nat.lt_succ_of_lt h3, h4, h5, h6⟩
      · subst he
        refine ⟨hc.1, hc.2, Nat.lt_succ_self k, rfl, rfl, ?_⟩
        show ((simAux S cfg interval k).traj ++ [(stepSim S _ _).1]).length = k + 2
        rw [List.length_append, simAux_traj_length S cfg interval k]
        rfl
    · simp only [simAux, stepIter, if_neg hc] at he
      obtain ⟨h1, h2, h3, h4, h5, h6⟩ := ih e he
      exact ⟨h1, h2, Nat.lt_succ_of_lt h3, h4, h5, h6⟩

/-- C10: every progress event yielded during a run with at least one
iteration and a positive interval has `current_iteration` a positive
multiple of the interval (so no event is emitted for iteration 0),
`progress_percent` equal to `current_iteration / iterations * 100` and
strictly below 100, and `trajectory_points` equal to
`current_iteration + 2`. -/
theorem C10_progress_invariants (S : Surface) (cfg : SimulationConfig) (interval : ℕ)
    (hiter : 1 ≤ cfg.iterations) (hint : 1 ≤ interval) :
    ∀ e ∈ (simulate S cfg interval).2,
      (∃ m, 1 ≤ m ∧ e.current_iteration = m * interval) ∧
      e.progress_percent = (e.current_iteration : ℚ) / (cfg.iterations : ℚ) * 100 ∧
      e.progress_percent < 100 ∧
      e.trajectory_points = e.current_iteration + 2 := by
  intro e he
  obtain ⟨h1, h2, h3, _h4, h5, h6⟩ :=
    simAux_prog_inv S cfg interval cfg.iterations e he
  have hdvd : interval ∣ e.current_iteration := Nat.dvd_of_mod_eq_zero h2
  refine ⟨⟨e.current_iteration / interval, ?_, ?_⟩, h5, ?_, h6⟩
  · exact (Nat.one_le_div_iff hint).mpr (Nat.le_of_dvd h1 hdvd)
  · exact (Nat.div_mul_cancel hdvd).symm
  · rw [h5]
    have hpos : (0 : ℚ) < (cfg.iterations : ℚ) := by
      exact_mod_cast Nat.lt_of_lt_of_le Nat.zero_lt_one hiter
    have hlt : (e.current_iteration : ℚ) < (cfg.iterations : ℚ) := by exact_mod_cast h3
    have hq : (e.current_iteration : ℚ) / (cfg.iterations : ℚ) < 1 := (div_lt_one hpos).mpr hlt
    linarith

/-- Witness for C10 at the first event of a concrete three-iteration run
with interval 1. -/
theorem C10_progress_invariants_witness :
    (∃ m, 1 ≤ m ∧ (⟨1, 3, 100 / 3, 3⟩ : SimulationProgress).current_iteration = m * 1) ∧
    (⟨1, 3, 100 / 3, 3⟩ : SimulationProgress).progress_percent =
      ((⟨1, 3, 100 / 3, 3⟩ : SimulationProgress).current_iteration : ℚ) /
        (cfgProg.iterations : ℚ) * 100 ∧
    (⟨1, 3, 100 / 3, 3⟩ : SimulationProgress).progress_percent < 100 ∧
    (⟨1, 3, 100 / 3, 3⟩ : SimulationProgress).trajectory_points =
      (⟨1, 3, 100 / 3, 3⟩ : SimulationProgress).current_iteration + 2 :=
  C10_progress_invariants S0 cfgProg 1 (by decide) (by decide)
    ⟨1, 3, 100 / 3, 3⟩ (by decide)

/-- C9: a segment between consecutive trajectory points is drawn if and
only if its Euclidean length in canvas coordinates is at most 10% of the
canvas size; every longer segment is skipped.  The renderer compares
`sqrt((x2-x1)**2 + (y2-y1)**2) > size * 0.1` and skips on true, which for a
positive canvas size is the stated square-root condition. -/
theorem C9_segment_filtering (traj : List Vec2) (size : ℚ) (hs : 0 < size) (p q : Vec2) :
    (p, q) ∈ drawnSegments traj size ↔
      ((p, q) ∈ consecutivePairs traj ∧
        Real.sqrt ((segLen2 size p q : ℚ) : ℝ) ≤ ((size : ℚ) : ℝ) * (1 / 10)) := by
  have hy : (0 : ℝ) ≤ ((size : ℚ) : ℝ) * (1 / 10) := by
    have h1 : (0 : ℝ) < ((size : ℚ) : ℝ) := by exact_mod_cast hs
    linarith
  have key : segLen2 size p q ≤ (size * (1 / 10)) ^ 2 ↔
      Real.sqrt ((segLen2 size p q : ℚ) : ℝ) ≤ ((size : ℚ) : ℝ) * (1 / 10) := by
    rw [Real.sqrt_le_left hy,
      show (((size : ℚ) : ℝ) * (1 / 10)) ^ 2 = (((size * (1 / 10)) ^ 2 : ℚ) : ℝ) by
        push_cast
        ring]
    exact Rat.cast_le.symm
  unfold drawnSegments
  rw [List.mem_filter]
  simp only [decide_eq_true_eq]
  rw [key]

/-- Witness for C9: the short first segment of the concrete trajectory at
canvas size 100. -/
theorem C9_segment_filtering_witness :
    ((⟨0, 0⟩, ⟨1 / 20, 0⟩) : Vec2 × Vec2) ∈ drawnSegments trajEx 100 ↔
      (((⟨0, 0⟩, ⟨1 / 20, 0⟩) : Vec2 × Vec2) ∈ consecutivePairs trajEx ∧
        Real.sqrt ((segLen2 100 ⟨0, 0⟩ ⟨1 / 20, 0⟩ : ℚ) : ℝ) ≤ ((100 : ℚ) : ℝ) * (1 / 10)) :=
  C9_segment_filtering trajEx 100 (by norm_num) ⟨0, 0⟩ ⟨1 / 20, 0⟩

end LineDraw
